import Mathlib

/-!
Shallow embedding of `swiftly/cli/cli.py`: the `CLI` class handling the
original command line — option resolution with environment-variable
fallbacks, subcommand dispatch with the `for` alias, error-to-exit-code
mapping, transport-client selection, and the gated verbose logger.
-/

namespace Swiftly

/-! ## Python value helpers -/

/-- A single quote character as a string, used by `repr` renderings. -/
def squote : String := "\x27"

/-- Python `repr` of a string that contains no quote or escape characters
(the only case the CLI ever formats with `%r`): the text wrapped in single
quotes. -/
def pyRepr (s : String) : String := squote ++ s ++ squote

/-- Lowercasing of one character, ASCII range (the range exercised by the
boolean environment tokens the CLI compares against "true"). -/
def pyLowerChar (c : Char) : Char :=
  if 65 ≤ c.toNat ∧ c.toNat ≤ 90 then Char.ofNat (c.toNat + 32) else c

/-- Python `str.lower()` as applied to environment-variable tokens
(cli.py lines 166 and 180-181), modelled on the ASCII range. -/
def pyLower (s : String) : String := String.mk (s.toList.map pyLowerChar)

/-- Accumulate a decimal digit sequence into a number; `none` on a
non-digit or on the empty sequence. -/
def decDigits (cs : List Char) : Option Nat :=
  if cs = [] then none
  else
    cs.foldl
      (fun acc c =>
        match acc with
        | none => none
        | some n =>
          if 48 ≤ c.toNat ∧ c.toNat ≤ 57 then some (n * 10 + (c.toNat - 48))
          else none)
      (some 0)

/-- Python `int()` applied to a decimal string (optional leading minus
sign plus digits), as used on `os.environ.get('SWIFTLY_RETRIES', 4)` and
on flag values at cli.py lines 173, 193, 299 and 320; `none` models a
raised `ValueError`. -/
def pyInt (s : String) : Option Int :=
  match s.toList with
  | '-' :: cs => (decDigits cs).map (fun n => -(n : Int))
  | cs => (decDigits cs).map (fun n => (n : Int))

/-! ## Option resolution (cli.py lines 106-220, 299, 320)

Each option is declared with `default=os.environ.get(VAR, hard)`; optparse
then uses an explicitly passed flag value in place of that default. So the
resolution per option is: flag value if passed, else environment value if
the variable is set, else the hard default. -/

/-- Resolution of a string-typed option (auth URL/user/key/tenant, auth
methods, region, direct, proxy): `default=os.environ.get(VAR, '')`, with a
passed flag value overriding the default. -/
def resolveStrOpt (flag : Option String) (env : Option String) : String :=
  match flag with
  | some v => v
  | none => env.getD ""

/-- Resolution of an int-typed option: the declared default is
`int(os.environ.get(VAR, hard))`; a passed flag arrives as a string and is
converted with `int()` at cli.py line 299 (`retries`) or 320
(`concurrency`). `none` models the `ValueError` Python would raise. -/
def resolveIntOpt (flag : Option String) (env : Option String) (hard : Int) :
    Option Int :=
  match flag with
  | some s => pyInt s
  | none =>
    match env with
    | some s => pyInt s
    | none => some hard

/-- `-R, --retries`, cli.py lines 171-177 and 299; hard default 4. -/
def resolveRetries (flag : Option String) (env : Option String) : Option Int :=
  resolveIntOpt flag env 4

/-- `--concurrency`, cli.py lines 191-205 and 320; hard default 1. -/
def resolveConcurrency (flag : Option String) (env : Option String) :
    Option Int :=
  resolveIntOpt flag env 1

/-- The env-derived default of a boolean option:
`os.environ.get(VAR, 'false').lower() == 'true'` (cli.py lines 166 and
180-181, for SWIFTLY_SNET and SWIFTLY_CACHE_AUTH). -/
def boolEnvDefault (env : Option String) : Bool :=
  pyLower (env.getD "false") == "true"

/-- Resolution of a `store_true` boolean option: a passed flag forces
`True`; otherwise the env-derived default applies. -/
def resolveBoolOpt (flagPassed : Bool) (env : Option String) : Bool :=
  if flagPassed then true else boolEnvDefault env

/-! ## Claim theorems on option resolution -/

/-- C1: for every option, resolution follows the precedence
flag > environment variable > hard default: a passed flag value is used;
otherwise a set environment variable's value is used; otherwise the
documented default applies (retries = 4, concurrency = 1,
booleans = false). The last two conjuncts are the spec's worked example:
env RETRIES=2 with flag --retries 7 resolves to 7; env alone resolves
to 2. -/
theorem option_resolution_precedence :
    (∀ f e, resolveStrOpt (some f) e = f) ∧
    (∀ e, resolveStrOpt none (some e) = e) ∧
    resolveStrOpt none none = "" ∧
    (∀ f e, resolveRetries (some f) e = pyInt f) ∧
    (∀ e, resolveRetries none (some e) = pyInt e) ∧
    resolveRetries none none = some 4 ∧
    (∀ f e, resolveConcurrency (some f) e = pyInt f) ∧
    (∀ e, resolveConcurrency none (some e) = pyInt e) ∧
    resolveConcurrency none none = some 1 ∧
    (∀ e, resolveBoolOpt true e = true) ∧
    (∀ e, resolveBoolOpt false (some e) = (pyLower e == "true")) ∧
    resolveBoolOpt false none = false ∧
    resolveRetries (some "7") (some "2") = some 7 ∧
    resolveRetries none (some "2") = some 2 := by
  refine ⟨fun f e => rfl, fun e => rfl, rfl, fun f e => rfl, fun e => rfl,
    rfl, fun f e => rfl, fun e => rfl, rfl, fun e => rfl, fun e => rfl,
    rfl, rfl, rfl⟩

/-- C5: a boolean option resolved from its environment variable is true
iff the variable's value, lowercased, equals the literal token "true";
any other value, including "1", resolves to false. -/
theorem bool_env_true_token (e : String) :
    (resolveBoolOpt false (some e) = true ↔ pyLower e = "true") ∧
    resolveBoolOpt false (some "1") = false ∧
    resolveBoolOpt false (some "True") = true := by
  refine ⟨?_, rfl, rfl⟩
  simp [resolveBoolOpt, boolEnvDefault]

/-! ## Subcommand dispatch (cli.py lines 322-346)

The tail of `CLI.__call__` after option parsing: alias resolution, registry
lookup, invocation, and the mapping of a raised failure to stderr output
and an exit code. Subcommands are external collaborators, modelled as
functions from the remaining argument slice to an outcome. -/

/-- A Python exception as observed at the dispatch boundary:
`text` is the optional `text` attribute (`none` models the attribute being
absent, `some ""` an empty value); `code` is the optional `code` attribute
read by `getattr(err, 'code', 1)`; `excLine` is the exception's own
type-and-message line as it appears in `traceback.format_exc()`. -/
structure PyErr where
  text : Option String
  code : Option Int
  excLine : String
deriving DecidableEq

/-- Outcome of invoking a subcommand: normal return, or a raised
exception. -/
inductive CmdResult where
  | ok : CmdResult
  | exc : PyErr → CmdResult
deriving DecidableEq

/-- The command registry `self.commands`: name to implementation. -/
abbrev Registry := String → Option (List String → CmdResult)

/-- `traceback.format_exc()` as written at cli.py line 342: the fixed
traceback header followed by the failure's own type-and-message line. -/
def formatExc (err : PyErr) : String :=
  "Traceback (most recent call last):\n" ++ err.excLine ++ "\n"

/-- Alias resolution, cli.py lines 322-324:
`command = args[0]; if command == 'for': command = 'fordo'`. -/
def aliasOf (tok : String) : String :=
  if tok == "for" then "fordo" else tok

/-- Observable result of one dispatch: everything written to the
diagnostic error stream, which command (post-alias) was invoked with which
argument slice, and the returned exit code. -/
structure DispatchOut where
  stderr : String
  invoked : Option (String × List String)
  exit : Int
deriving DecidableEq

/-- cli.py lines 322-346: resolve the alias, look the command up
(`ERROR unknown command %r` on a miss, formatted from the original
`args[0]`), invoke it with `args[1:]`, and map a raised failure to output
and an exit code: a truthy `text` attribute prints `ERROR <text>`, an
absent `text` attribute prints the traceback, a falsy-but-present `text`
prints nothing; the exit code is `getattr(err, 'code', 1)` in every
failure case. The empty argument vector is handled earlier (help text,
exit 1, no command invoked). -/
def dispatch (commands : Registry) : List String → DispatchOut
  | [] => { stderr := "", invoked := none, exit := 1 }
  | tok :: rest =>
    match commands (aliasOf tok) with
    | none =>
      { stderr := "ERROR unknown command " ++ pyRepr tok ++ "\n",
        invoked := none, exit := 1 }
    | some cmd =>
      match cmd rest with
      | CmdResult.ok =>
        { stderr := "", invoked := some (aliasOf tok, rest), exit := 0 }
      | CmdResult.exc err =>
        { stderr :=
            match err.text with
            | some t => if t = "" then "" else "ERROR " ++ t ++ "\n"
            | none => formatExc err ++ "\n",
          invoked := some (aliasOf tok, rest),
          exit := err.code.getD 1 }

/-! ## Claim theorems on dispatch -/

/-- C2: a subcommand invocation raising a failure with a non-empty
`text` writes the line `ERROR <text>` to the error stream and returns the
failure's explicit code if one is attached, else 1. -/
theorem signaled_failure_reporting (commands : Registry) (tok : String)
    (rest : List String) (cmd : List String → CmdResult) (err : PyErr)
    (t : String) (hc : commands (aliasOf tok) = some cmd)
    (hr : cmd rest = CmdResult.exc err) (ht : err.text = some t)
    (hne : t ≠ "") :
    dispatch commands (tok :: rest) =
      { stderr := "ERROR " ++ t ++ "\n",
        invoked := some (aliasOf tok, rest),
        exit := err.code.getD 1 } := by
  simp [dispatch, hc, hr, ht, hne]

/-- Witness for C2: the spec's example, message "no such container" with
code 4, yields the line `ERROR no such container` and exit code 4. -/
theorem signaled_failure_reporting_witness :
    dispatch
      (fun n =>
        if n = "get" then
          some (fun _ =>
            CmdResult.exc ⟨some "no such container", some 4, "ReturnCode"⟩)
        else none)
      ["get", "c1"] =
      { stderr := "ERROR no such container\n",
        invoked := some ("get", ["c1"]),
        exit := 4 } := by
  exact signaled_failure_reporting
    (fun n =>
      if n = "get" then
        some (fun _ =>
          CmdResult.exc ⟨some "no such container", some 4, "ReturnCode"⟩)
      else none)
    "get" ["c1"]
    (fun _ => CmdResult.exc ⟨some "no such container", some 4, "ReturnCode"⟩)
    ⟨some "no such container", some 4, "ReturnCode"⟩ "no such container"
    rfl rfl rfl (by simp)

/-- C4: an invocation whose subcommand token is neither a registered name
nor the reserved-word alias writes exactly the one line
`ERROR unknown command '<token>'` to the error stream, invokes no
subcommand, and returns exit code 1. -/
theorem unknown_command_reporting (commands : Registry) (tok : String)
    (rest : List String) (hfor : tok ≠ "for") (h : commands tok = none) :
    dispatch commands (tok :: rest) =
      { stderr := "ERROR unknown command " ++ pyRepr tok ++ "\n",
        invoked := none, exit := 1 } := by
  have ha : aliasOf tok = tok := by
    simp [aliasOf, hfor]
  simp [dispatch, ha, h]

/-- Witness for C4: the token `bogus` against an empty registry yields
the single line `ERROR unknown command 'bogus'`, no invocation, exit 1. -/
theorem unknown_command_reporting_witness :
    dispatch (fun _ => none) ["bogus"] =
      { stderr := "ERROR unknown command " ++ pyRepr "bogus" ++ "\n",
        invoked := none, exit := 1 } := by
  exact unknown_command_reporting (fun _ => none) "bogus" [] (by simp) rfl

/-- C8: an invocation with subcommand token `for` dispatches identically
to one with the canonical token `fordo`: the same registered command is
looked up and invoked with the same remaining slice, producing the same
outcome. -/
theorem for_alias_dispatch (commands : Registry) (rest : List String)
    (cmd : List String → CmdResult) (h : commands "fordo" = some cmd) :
    dispatch commands ("for" :: rest) = dispatch commands ("fordo" :: rest) := by
  have ha : aliasOf "for" = "fordo" := rfl
  have hb : aliasOf "fordo" = "fordo" := rfl
  simp only [dispatch, ha, hb, h]

/-- Witness for C8: a concrete registry holding `fordo`. -/
theorem for_alias_dispatch_witness :
    dispatch (fun n => if n = "fordo" then some (fun _ => CmdResult.ok) else none)
        ["for", "x"] =
      dispatch (fun n => if n = "fordo" then some (fun _ => CmdResult.ok) else none)
        ["fordo", "x"] := by
  exact for_alias_dispatch _ ["x"] (fun _ => CmdResult.ok) rfl

/-- C10: a failure whose `text` attribute is present but empty writes
nothing at all to the error stream and still returns the attached exit
code, or 1 if none is attached. -/
theorem empty_text_silent_exit (commands : Registry) (tok : String)
    (rest : List String) (cmd : List String → CmdResult) (err : PyErr)
    (hc : commands (aliasOf tok) = some cmd)
    (hr : cmd rest = CmdResult.exc err) (ht : err.text = some "") :
    dispatch commands (tok :: rest) =
      { stderr := "", invoked := some (aliasOf tok, rest),
        exit := err.code.getD 1 } := by
  simp [dispatch, hc, hr, ht]

/-- Witness for C10: an empty-text failure with code 7 produces no stderr
output and exit code 7. -/
theorem empty_text_silent_exit_witness :
    dispatch
      (fun n =>
        if n = "put" then
          some (fun _ => CmdResult.exc ⟨some "", some 7, "ReturnCode"⟩)
        else none)
      ["put"] =
      { stderr := "", invoked := some ("put", []), exit := 7 } := by
  exact empty_text_silent_exit
    (fun n =>
      if n = "put" then
        some (fun _ => CmdResult.exc ⟨some "", some 7, "ReturnCode"⟩)
      else none)
    "put" []
    (fun _ => CmdResult.exc ⟨some "", some 7, "ReturnCode"⟩)
    ⟨some "", some 7, "ReturnCode"⟩ rfl rfl rfl

/-- C3 counterexample: the claim says an unsignaled failure (no `text`
attribute) always yields exit code 1, but `CLI.__call__` ends every
failure path with `return getattr(err, 'code', 1)`: a failure with no
`text` attribute but with `code = 4` prints the diagnostic trace and
returns 4, not 1. -/
theorem unsignaled_failure_code_counterexample :
    (dispatch
        (fun n =>
          if n = "boom" then
            some (fun _ => CmdResult.exc ⟨none, some 4, "RuntimeException"⟩)
          else none)
        ["boom"]).exit = 4 ∧
    (dispatch
        (fun n =>
          if n = "boom" then
            some (fun _ => CmdResult.exc ⟨none, some 4, "RuntimeException"⟩)
          else none)
        ["boom"]).exit ≠ 1 ∧
    (dispatch
        (fun n =>
          if n = "boom" then
            some (fun _ => CmdResult.exc ⟨none, some 4, "RuntimeException"⟩)
          else none)
        ["boom"]).stderr ≠ "" := by
  refine ⟨rfl, by simp [dispatch, aliasOf], ?_⟩
  simp [dispatch, aliasOf, formatExc]

/-- C3 amended: a subcommand invocation raising a failure with no `text`
attribute prints a full, non-empty diagnostic trace to the error stream
and returns the failure's attached exit code if one is attached,
otherwise 1. -/
theorem unsignaled_failure_trace (commands : Registry) (tok : String)
    (rest : List String) (cmd : List String → CmdResult) (err : PyErr)
    (hc : commands (aliasOf tok) = some cmd)
    (hr : cmd rest = CmdResult.exc err) (ht : err.text = none) :
    dispatch commands (tok :: rest) =
      { stderr := formatExc err ++ "\n",
        invoked := some (aliasOf tok, rest),
        exit := err.code.getD 1 } ∧
    formatExc err ++ "\n" ≠ "" := by
  constructor
  · simp [dispatch, hc, hr, ht]
  · intro hcontra
    have h1 := congrArg String.length hcontra
    rw [String.length_append] at h1
    have h2 : ("\n" : String).length = 1 := rfl
    have h3 : ("" : String).length = 0 := rfl
    omega

/-- Witness for the amended C3: a plain failure with neither `text` nor
`code` prints the trace and returns 1. -/
theorem unsignaled_failure_trace_witness :
    dispatch
      (fun n =>
        if n = "ping" then
          some (fun _ => CmdResult.exc ⟨none, none, "ValueException"⟩)
        else none)
      ["ping"] =
      { stderr := formatExc ⟨none, none, "ValueException"⟩ ++ "\n",
        invoked := some ("ping", []), exit := 1 } ∧
    formatExc ⟨none, none, "ValueException"⟩ ++ "\n" ≠ "" := by
  exact unsignaled_failure_trace
    (fun n =>
      if n = "ping" then
        some (fun _ => CmdResult.exc ⟨none, none, "ValueException"⟩)
      else none)
    "ping" []
    (fun _ => CmdResult.exc ⟨none, none, "ValueException"⟩)
    ⟨none, none, "ValueException"⟩ rfl rfl rfl

/-! ## The verbose logger `CLI._verbose` (cli.py lines 348-361)

Verbose output is gated on `self.context.verbosity` (None, or 1 once
`-v` is seen). An enabled call writes `VERBOSE %.02f ` with the elapsed
seconds since `original_begin`, then `msg % args`, then a newline, and
flushes; a `TypeError` from the formatting is re-raised as
`TypeError('%s: %r %r' % (err, msg, args))`. Time is modelled at
centisecond granularity, which `%.02f` renders exactly. -/

/-- A Python value passed as a `%`-formatting argument. -/
inductive PyVal where
  | str : String → PyVal
  | int : Int → PyVal
deriving DecidableEq

/-- Python `str()` of a formatting argument. -/
def PyVal.toStr : PyVal → String
  | .str s => s
  | .int n => toString n

/-- Python `repr()` of a formatting argument (strings in the
no-escape-character case). -/
def PyVal.toRepr : PyVal → String
  | .str s => pyRepr s
  | .int n => toString n

/-- Python `repr()` of the `args` tuple, as rendered by the `%r`
directive of the re-raised TypeError. -/
def reprTuple (args : List PyVal) : String :=
  match args with
  | [] => "()"
  | [a] => "(" ++ a.toRepr ++ ",)"
  | _ => "(" ++ String.intercalate ", " (args.map PyVal.toRepr) ++ ")"

/-- Result of evaluating Python `msg % args`: the formatted string, a
TypeError (argument-count or argument-type mismatch, the case cli.py
line 358 catches), or a ValueError (malformed directive, which the CLI
does not catch). -/
inductive FmtResult where
  | ok : String → FmtResult
  | typeError : String → FmtResult
  | valueError : String → FmtResult
deriving DecidableEq

/-- Python `%`-formatting over the directives the CLI's diagnostic
messages use: `%s`, `%d` and the literal `%%`. Mismatches raise the same
TypeErrors CPython raises: too few arguments, a non-number for `%d`, or
leftover arguments once the template is exhausted. -/
def pyFormatAux : List Char → List PyVal → String → FmtResult
  | [], [], acc => FmtResult.ok acc
  | [], _ :: _, _ =>
    FmtResult.typeError "not all arguments converted during string formatting"
  | '%' :: 's' :: _, [], _ =>
    FmtResult.typeError "not enough arguments for format string"
  | '%' :: 's' :: rest, a :: args, acc =>
    pyFormatAux rest args (acc ++ a.toStr)
  | '%' :: 'd' :: _, [], _ =>
    FmtResult.typeError "not enough arguments for format string"
  | '%' :: 'd' :: rest, PyVal.int n :: args, acc =>
    pyFormatAux rest args (acc ++ toString n)
  | '%' :: 'd' :: _, PyVal.str _ :: _, _ =>
    FmtResult.typeError "%d format: a number is required, not str"
  | '%' :: '%' :: rest, args, acc =>
    pyFormatAux rest args (acc ++ "%")
  | ['%'], _, _ =>
    FmtResult.valueError "incomplete format"
  | '%' :: _ :: _, _, _ =>
    FmtResult.valueError "unsupported format character"
  | c :: rest, args, acc =>
    pyFormatAux rest args (acc ++ String.mk [c])

/-- Python `msg % args` on the CLI's diagnostic messages. -/
def pyFormat (msg : String) (args : List PyVal) : FmtResult :=
  pyFormatAux msg.toList args ""

/-- Two-digit rendering of the fractional part of `%.02f`. -/
def twoDigit (f : Nat) : String :=
  if f < 10 then "0" ++ toString f else toString f

/-- `'%.02f' % elapsed` for an elapsed time given exactly in
centiseconds. -/
def formatElapsed (cs : Nat) : String :=
  toString (cs / 100) ++ "." ++ twoDigit (cs % 100)

/-- The verbosity gate and clock the logger reads from the context:
`context.verbosity` (None until `-v` sets it to 1) and
`time.time() - context.original_begin` in centiseconds. -/
structure VerboseState where
  verbosity : Option Nat
  elapsedCs : Nat

/-- Observable effect of one `_verbose` call: text written (and flushed)
to the debug stream, a re-raised TypeError, or an uncaught error. -/
inductive VerboseResult where
  | wrote : String → VerboseResult
  | raised : String → VerboseResult
  | uncaught : String → VerboseResult
deriving DecidableEq

/-- `CLI._verbose` (cli.py lines 348-361): a no-op when
`context.verbosity` is falsy; otherwise writes the `VERBOSE` prefix with
the elapsed seconds, the formatted message and a newline, flushing after;
a TypeError from `msg % args` is re-raised as
`TypeError('%s: %r %r' % (err, msg, args))`. -/
def _verbose (st : VerboseState) (msg : String) (args : List PyVal) :
    VerboseResult :=
  if st.verbosity.getD 0 ≠ 0 then
    match pyFormat msg args with
    | FmtResult.ok body =>
      VerboseResult.wrote
        ("VERBOSE " ++ formatElapsed st.elapsedCs ++ " " ++ body ++ "\n")
    | FmtResult.typeError e =>
      VerboseResult.raised (e ++ ": " ++ pyRepr msg ++ " " ++ reprTuple args)
    | FmtResult.valueError e => VerboseResult.uncaught e
  else
    VerboseResult.wrote ""

/-- The fractional part printed by `formatElapsed` always has exactly two
digits. -/
theorem twoDigit_length : ∀ f, f < 100 → (twoDigit f).length = 2 := by
  decide

/-- C6: with verbosity enabled, a diagnostic call with a well-formed
message writes exactly one flushed line
`VERBOSE <elapsed, two-decimal fixed point> <message>` plus newline; with
verbosity disabled, any number of diagnostic calls produce zero
output. -/
theorem verbose_gate_and_format (cs : Nat) (msg : String)
    (args : List PyVal) (body : String)
    (h : pyFormat msg args = FmtResult.ok body) :
    _verbose ⟨some 1, cs⟩ msg args =
      VerboseResult.wrote
        ("VERBOSE " ++ formatElapsed cs ++ " " ++ body ++ "\n") ∧
    (∃ ip, formatElapsed cs = ip ++ "." ++ twoDigit (cs % 100) ∧
      (twoDigit (cs % 100)).length = 2) ∧
    (∀ calls : List (String × List PyVal),
      calls.map (fun c => _verbose ⟨none, cs⟩ c.1 c.2) =
        calls.map (fun _ => VerboseResult.wrote "")) := by
  refine ⟨by simp [_verbose, h], ⟨toString (cs / 100), rfl, ?_⟩, ?_⟩
  · exact twoDigit_length (cs % 100) (Nat.mod_lt cs (by norm_num))
  · intro calls
    simp [_verbose]

/-- Witness for C6: the message template `put of %s` with one string
argument at 1.28 elapsed seconds. -/
theorem verbose_gate_and_format_witness :
    _verbose ⟨some 1, 128⟩ "put of %s" [PyVal.str "obj1"] =
      VerboseResult.wrote
        ("VERBOSE " ++ formatElapsed 128 ++ " " ++ "put of obj1" ++ "\n") ∧
    (∃ ip, formatElapsed 128 = ip ++ "." ++ twoDigit (128 % 100) ∧
      (twoDigit (128 % 100)).length = 2) ∧
    (∀ calls : List (String × List PyVal),
      calls.map (fun c => _verbose ⟨none, 128⟩ c.1 c.2) =
        calls.map (fun _ => VerboseResult.wrote "")) := by
  exact verbose_gate_and_format 128 "put of %s" [PyVal.str "obj1"]
    "put of obj1" rfl

/-- C7: a verbose diagnostic call whose template mismatches its
arguments re-raises a descriptive error built from the TypeError, the
repr of the offending template and the repr of the argument tuple; the
mismatch is never silently swallowed. -/
theorem verbose_format_mismatch_reraised (cs : Nat) (msg : String)
    (args : List PyVal) (e : String)
    (h : pyFormat msg args = FmtResult.typeError e) :
    _verbose ⟨some 1, cs⟩ msg args =
      VerboseResult.raised
        (e ++ ": " ++ pyRepr msg ++ " " ++ reprTuple args) := by
  simp [_verbose, h]

/-- Witness for C7: the template `%s %s` with a single argument raises
`not enough arguments for format string`, re-raised with the template and
the 1-tuple of arguments identified. -/
theorem verbose_format_mismatch_reraised_witness :
    _verbose ⟨some 1, 50⟩ "%s %s" [PyVal.str "a"] =
      VerboseResult.raised
        ("not enough arguments for format string" ++ ": " ++
          pyRepr "%s %s" ++ " " ++ reprTuple [PyVal.str "a"]) := by
  exact verbose_format_mismatch_reraised 50 "%s %s" [PyVal.str "a"]
    "not enough arguments for format string" rfl

/-! ## Transport-client selection (cli.py lines 299-317)

`CLI.__call__` builds the `ClientManager` with `DirectClient` when
`options.direct` is truthy (a non-empty path), and with `StandardClient`
otherwise. The two factory parameter lists are modelled verbatim. -/

/-- The resolved main options consulted when building the client manager
(cli.py lines 299-320; `retries` has already passed through `int()` at
line 299). -/
structure Options where
  auth_url : String
  auth_user : String
  auth_key : String
  auth_tenant : String
  auth_methods : String
  region : String
  direct : String
  proxy : String
  snet : Bool
  retries : Int
  cache_auth : Bool
  cdn : Bool
  concurrency : Int
deriving DecidableEq

/-- Parameters of `ClientManager(DirectClient, ...)`, cli.py
lines 301-304. -/
structure DirectParams where
  swift_proxy_storage_path : String
  attempts : Int
  eventlet : Bool
deriving DecidableEq

/-- Parameters of `ClientManager(StandardClient, ...)`, cli.py
lines 311-317. -/
structure StandardParams where
  auth_methods : String
  auth_url : String
  auth_tenant : String
  auth_user : String
  auth_key : String
  auth_cache_path : Option String
  region : String
  snet : Bool
  attempts : Int
  eventlet : Bool
deriving DecidableEq

/-- The constructed client-manager factory: which client class was chosen
and the full parameter list passed to it. -/
inductive ClientManagerSel where
  | direct : DirectParams → ClientManagerSel
  | standard : StandardParams → ClientManagerSel
deriving DecidableEq

/-- True when the direct transport was selected. -/
def ClientManagerSel.isDirect : ClientManagerSel → Bool
  | .direct _ => true
  | .standard _ => false

/-- cli.py lines 306-310: the optional on-disk auth cache path,
`<tempdir>/<USER>.swiftly`, built only when `cache_auth` is set. -/
def authCachePath (cache_auth : Bool) (tmpdir : String)
    (userEnv : Option String) : Option String :=
  if cache_auth then some (tmpdir ++ "/" ++ userEnv.getD "user" ++ ".swiftly")
  else none

/-- cli.py lines 299-317: `if options.direct:` build the DirectClient
manager from the direct path, retries + 1 attempts and the eventlet flag;
otherwise build the StandardClient manager from the proxied-auth
fields. -/
def selectClientManager (options : Options) (eventlet : Bool)
    (tmpdir : String) (userEnv : Option String) : ClientManagerSel :=
  if options.direct ≠ "" then
    ClientManagerSel.direct
      { swift_proxy_storage_path := options.direct,
        attempts := options.retries + 1,
        eventlet := eventlet }
  else
    ClientManagerSel.standard
      { auth_methods := options.auth_methods,
        auth_url := options.auth_url,
        auth_tenant := options.auth_tenant,
        auth_user := options.auth_user,
        auth_key := options.auth_key,
        auth_cache_path := authCachePath options.cache_auth tmpdir userEnv,
        region := options.region,
        snet := options.snet,
        attempts := options.retries + 1,
        eventlet := eventlet }

/-- C9: the direct transport is selected iff a non-empty direct-access
path was configured, and in that case the resolved auth URL, user, key
and tenant are never consulted: two invocations identical except in those
four values construct the direct client factory with identical
parameters. -/
theorem direct_transport_selection (options : Options) (eventlet : Bool)
    (tmpdir : String) (userEnv : Option String) (u v k t : String) :
    ((selectClientManager options eventlet tmpdir userEnv).isDirect = true ↔
      options.direct ≠ "") ∧
    (options.direct ≠ "" →
      selectClientManager
          { options with auth_url := u, auth_user := v, auth_key := k,
                         auth_tenant := t }
          eventlet tmpdir userEnv =
        selectClientManager options eventlet tmpdir userEnv) := by
  constructor
  · by_cases hd : options.direct = "" <;>
      simp [selectClientManager, ClientManagerSel.isDirect, hd]
  · intro hd
    simp [selectClientManager, hd]

/-- Witness for C9: a concrete direct-path configuration; changing all
four auth fields leaves the constructed factory unchanged. -/
theorem direct_transport_selection_witness :
    ((selectClientManager
        { auth_url := "http://a", auth_user := "u1", auth_key := "k1",
          auth_tenant := "t1", auth_methods := "", region := "",
          direct := "/v1/AUTH_test", proxy := "", snet := false,
          retries := 4, cache_auth := false, cdn := false,
          concurrency := 1 }
        false "/tmp" none).isDirect = true ↔
      ("/v1/AUTH_test" : String) ≠ "") ∧
    selectClientManager
        { auth_url := "http://b", auth_user := "u2", auth_key := "k2",
          auth_tenant := "t2", auth_methods := "", region := "",
          direct := "/v1/AUTH_test", proxy := "", snet := false,
          retries := 4, cache_auth := false, cdn := false,
          concurrency := 1 }
        false "/tmp" none =
      selectClientManager
        { auth_url := "http://a", auth_user := "u1", auth_key := "k1",
          auth_tenant := "t1", auth_methods := "", region := "",
          direct := "/v1/AUTH_test", proxy := "", snet := false,
          retries := 4, cache_auth := false, cdn := false,
          concurrency := 1 }
        false "/tmp" none := by
  have h := direct_transport_selection
    { auth_url := "http://a", auth_user := "u1", auth_key := "k1",
      auth_tenant := "t1", auth_methods := "", region := "",
      direct := "/v1/AUTH_test", proxy := "", snet := false,
      retries := 4, cache_auth := false, cdn := false, concurrency := 1 }
    false "/tmp" none "http://b" "u2" "k2" "t2"
  exact ⟨h.1, h.2 (by simp)⟩

end Swiftly
